import Mathlib

/-!
Shallow embedding of the home_office lead-capture server (src/server.js).
The source file holds two variants of the same application: a MongoDB-backed
server (mongoose) and a SQLite-backed server. Both expose a contact-form
submission handler (POST /submit_contact) and a leads read API
(GET /api/leads). Stateful persistence is modelled by explicit state
passing: the store is a list of records, an insert appends, a query sorts.
-/

/-- A calendar moment as produced by the JavaScript `new Date()` call at
handling time: year-month-day hour:minute:second.millis, UTC. A JS `Date`
is backed by a milliseconds-since-epoch number; chronological order on
moments is lexicographic on the calendar components, and `dateKey` below is
a strictly monotone numeric encoding of the components standing for that
backing number. -/
structure Datetime where
  year : Nat
  month : Nat
  day : Nat
  hour : Nat
  minute : Nat
  second : Nat
  millis : Nat
deriving DecidableEq, Repr

/-- Component ranges of a real calendar moment, with the year in the
four-digit range that `Date.prototype.toISOString` renders without the
expanded sign-prefixed year form. -/
def Datetime.valid (d : Datetime) : Prop :=
  d.year ≤ 9999 ∧ 1 ≤ d.month ∧ d.month ≤ 12 ∧ 1 ≤ d.day ∧ d.day ≤ 31 ∧
  d.hour ≤ 23 ∧ d.minute ≤ 59 ∧ d.second ≤ 59 ∧ d.millis ≤ 999

instance (d : Datetime) : Decidable d.valid := by
  unfold Datetime.valid; infer_instance

/-- Strictly monotone numeric encoding of a calendar moment (the stand-in
for the epoch-milliseconds value backing a JS `Date`, which MongoDB compares
numerically when sorting on a Date field). -/
def dateKey (d : Datetime) : Nat :=
  ((((((d.year * 100 + d.month) * 100 + d.day) * 100 + d.hour) * 100 +
      d.minute) * 100 + d.second) * 1000) + d.millis

/-- Fixed-width base-10 rendering of `x` as `w` ASCII digit bytes, most
significant digit first, zero-padded on the left (faithful for `x < 10^w`). -/
def pad : Nat → Nat → List Nat
  | 0, _ => []
  | w + 1, x => (48 + x / 10 ^ w) :: pad w (x % 10 ^ w)

/-- UTF-8 bytes of `Date.prototype.toISOString()` applied to the moment:
the 24-byte text YYYY-MM-DDTHH:mm:ss.sssZ (45 is the hyphen, 84 is T,
58 is the colon, 46 is the dot, 90 is Z). -/
def isoBytes (d : Datetime) : List Nat :=
  pad 4 d.year ++ (45 :: (pad 2 d.month ++ (45 :: (pad 2 d.day ++
    (84 :: (pad 2 d.hour ++ (58 :: (pad 2 d.minute ++ (58 :: (pad 2 d.second ++
      (46 :: (pad 3 d.millis ++ [90]))))))))))))

/-- Strict byte-wise lexicographic order on byte strings: the comparison
SQLite's default BINARY collation (memcmp) performs on TEXT values. -/
def lexLt : List Nat → List Nat → Bool
  | [], [] => false
  | [], _ :: _ => true
  | _ :: _, [] => false
  | a :: as, b :: bs => if a < b then true else if b < a then false else lexLt as bs

/-- Reflexive byte-wise lexicographic order, derived from `lexLt`. -/
def lexLe (a b : List Nat) : Bool := !(lexLt b a)

/-- JavaScript truthiness of an optional string form field: `!v` holds
exactly when the field is absent (undefined) or the empty string, so a
field passes the handler's check when it is present and non-empty. -/
def truthy : Option String → Bool
  | none => false
  | some s => !(s == "")

/-- The parsed form body of a POST /submit_contact request: the field names
the handlers read (`req.body.name`, `req.body.email`, `req.body.message`,
`req.body.tel`), each possibly absent. -/
structure Request where
  name : Option String
  email : Option String
  message : Option String
  tel : Option String
deriving DecidableEq, Repr

/-- A Lead document as stored by the MongoDB variant (the mongoose
LeadSchema): tel is optional in the schema, the id is store-assigned. -/
structure Lead where
  id : Nat
  full_name : String
  tel : Option String
  email_address : String
  project_details : String
  submission_date : Datetime
deriving DecidableEq, Repr

/-- A row of the SQLite `leads` table: no tel column, submission_date is a
TEXT cell holding the ISO-8601 rendering, kept here as its byte string. -/
structure SRow where
  id : Nat
  full_name : String
  email_address : String
  project_details : String
  submission_date : List Nat
deriving DecidableEq, Repr

/-- The plain record shape the MongoDB read handler maps each Lead to
before serialising the JSON array. -/
structure FormattedLead where
  id : Nat
  full_name : String
  tel : String
  email_address : String
  project_details : String
  submission_date : List Nat
deriving DecidableEq, Repr

/-- The HTTP responses the handlers produce: a redirect, an HTML or plain
text page with a status code, a JSON array of records, or a JSON error
object with a single `error` field. -/
inductive Response where
  | redirect (location : String)
  | htmlPage (code : Nat) (body : String)
  | textPage (code : Nat) (body : String)
  | jsonLeads (code : Nat) (body : List FormattedLead)
  | jsonRows (code : Nat) (body : List SRow)
  | jsonError (code : Nat) (error : String)
deriving DecidableEq, Repr

/-- Whether a response signals failure to the caller: the error redirect
target of the MongoDB variant, or a 4xx/5xx status. -/
def Response.indicatesFailure : Response → Bool
  | .redirect location => location == "/thank_you.html?status=error"
  | .htmlPage code _ => 400 ≤ code
  | .textPage code _ => 400 ≤ code
  | .jsonLeads code _ => 400 ≤ code
  | .jsonRows code _ => 400 ≤ code
  | .jsonError code _ => 400 ≤ code

/-- The MongoDB variant of app.post('/submit_contact'): reject an absent
body, require truthy name, email, message AND tel, then save a new Lead
with submission_date = new Date(); `dbOk` models whether the store commits
the write, `newId` the store-assigned id. -/
def mongoSubmit (st : List Lead) (body : Option Request) (now : Datetime)
    (dbOk : Bool) (newId : Nat) : List Lead × Response :=
  match body with
  | none => (st, .redirect "/thank_you.html?status=error")
  | some req =>
    if !(truthy req.name) || !(truthy req.email) || !(truthy req.message)
        || !(truthy req.tel) then
      (st, .redirect "/thank_you.html?status=error")
    else if dbOk then
      (st ++ [{ id := newId, full_name := req.name.getD "",
                tel := req.tel, email_address := req.email.getD "",
                project_details := req.message.getD "",
                submission_date := now }],
       .redirect "/thank_you.html?status=success")
    else
      (st, .redirect "/thank_you.html?status=error")

/-- The per-record mapping in the MongoDB read handler: JS
`tel: lead.tel || 'N/A'` turns an absent or empty-string tel into the
sentinel, and submission_date is rendered with toISOString. -/
def formatLead (ld : Lead) : FormattedLead :=
  { id := ld.id, full_name := ld.full_name,
    tel := match ld.tel with
           | none => "N/A"
           | some s => if s == "" then "N/A" else s,
    email_address := ld.email_address,
    project_details := ld.project_details,
    submission_date := isoBytes ld.submission_date }

/-- The MongoDB query order `.sort(submission_date: -1)`: descending on
the numeric Date value. -/
def mongoDesc (a b : Lead) : Prop :=
  dateKey b.submission_date ≤ dateKey a.submission_date

instance : DecidableRel mongoDesc := fun _ _ => Nat.decLe _ _

instance : IsTotal Lead mongoDesc :=
  ⟨fun a b => (Nat.le_total (dateKey b.submission_date) (dateKey a.submission_date))⟩

instance : IsTrans Lead mongoDesc :=
  ⟨fun _ _ _ h1 h2 => Nat.le_trans h2 h1⟩

/-- The JSON array body built by the MongoDB read handler: all leads,
sorted most recent first by the store, then mapped to the output shape. -/
def mongoLeadsPayload (leads : List Lead) : List FormattedLead :=
  (List.insertionSort mongoDesc leads).map formatLead

/-- The MongoDB variant of app.get('/api/leads'): on a successful query,
the sorted and formatted array; on a store error, status 500 with a fixed
generic error object (the caught message is only logged server-side). -/
def mongoGetLeads (dbResult : Except String (List Lead)) : Response :=
  match dbResult with
  | .ok leads => .jsonLeads 200 (mongoLeadsPayload leads)
  | .error _ => .jsonError 500 "Failed to fetch leads from database"

/-- The SQLite variant of app.post('/submit_contact'): require truthy
name, email, message (no tel), INSERT a row whose submission_date cell is
new Date().toISOString(); a failed INSERT yields a plain-text 500. -/
def sqliteSubmit (st : List SRow) (req : Request) (now : Datetime)
    (dbOk : Bool) (newId : Nat) : List SRow × Response :=
  if !(truthy req.name) || !(truthy req.email) || !(truthy req.message) then
    (st, .htmlPage 400 "<h1>Error: Missing Required Fields!</h1>")
  else if dbOk then
    (st ++ [{ id := newId, full_name := req.name.getD "",
              email_address := req.email.getD "",
              project_details := req.message.getD "",
              submission_date := isoBytes now }],
     .redirect "/thank_you.html")
  else
    (st, .textPage 500 "An internal server error occurred while saving your data.")

/-- The SQLite query order `ORDER BY submission_date DESC` on a TEXT
column: descending byte-wise (BINARY collation) comparison of the stored
ISO text. -/
def sqlDesc (a b : SRow) : Prop :=
  lexLe b.submission_date a.submission_date = true

instance : DecidableRel sqlDesc := fun _ _ => instDecidableEqBool _ _

/-- The row list the SQLite read handler sends back verbatim: all rows in
descending text order of submission_date. -/
def sqliteLeadsPayload (rows : List SRow) : List SRow :=
  List.insertionSort sqlDesc rows

/-- The SQLite variant of app.get('/api/leads'): the ordered rows as JSON,
or a 500 with the same fixed generic error object on a query error. -/
def sqliteGetLeads (dbResult : Except String (List SRow)) : Response :=
  match dbResult with
  | .ok rows => .jsonRows 200 (sqliteLeadsPayload rows)
  | .error _ => .jsonError 500 "Failed to fetch leads from database"

/-- Outcome of process startup: either process.exit with a code before the
server listens, or the server starts serving traffic. -/
inductive StartupResult where
  | exitFatal (code : Nat)
  | serveTraffic
deriving DecidableEq, Repr

/-- The MONGO_URI startup check in the MongoDB variant: a falsy (absent or
empty) connection string makes the process exit with code 1 before
app.listen is reached. -/
def startupCheck (mongoUri : Option String) : StartupResult :=
  if truthy mongoUri then .serveTraffic else .exitFatal 1

/-- One incoming request to the MongoDB variant, with the environment
inputs it depends on (clock value, store outcome, assigned id). -/
inductive MongoEvent where
  | post (body : Option Request) (now : Datetime) (dbOk : Bool) (newId : Nat)
  | get (dbFail : Option String)

/-- State transition of the MongoDB variant: the store contents before and
after handling one request, with the response. A GET never writes. -/
def mongoStep (st : List Lead) : MongoEvent → List Lead × Response
  | .post body now dbOk newId => mongoSubmit st body now dbOk newId
  | .get dbFail =>
    (st, mongoGetLeads (match dbFail with | some e => .error e | none => .ok st))

/-- One incoming request to the SQLite variant. -/
inductive SqliteEvent where
  | post (req : Request) (now : Datetime) (dbOk : Bool) (newId : Nat)
  | get (dbFail : Option String)

/-- State transition of the SQLite variant. A GET never writes. -/
def sqliteStep (st : List SRow) : SqliteEvent → List SRow × Response
  | .post req now dbOk newId => sqliteSubmit st req now dbOk newId
  | .get dbFail =>
    (st, sqliteGetLeads (match dbFail with | some e => .error e | none => .ok st))

/-- Strict chronological order on calendar moments: lexicographic on the
components, most significant first. -/
def chronoLt (a b : Datetime) : Prop :=
  a.year < b.year ∨ (a.year = b.year ∧ (a.month < b.month ∨ (a.month = b.month ∧
    (a.day < b.day ∨ (a.day = b.day ∧ (a.hour < b.hour ∨ (a.hour = b.hour ∧
      (a.minute < b.minute ∨ (a.minute = b.minute ∧ (a.second < b.second ∨
        (a.second = b.second ∧ a.millis < b.millis)))))))))))

theorem mixLt {r a1 a2 b1 b2 : Nat} (ha : a2 < r) (hb : b2 < r) :
    a1 * r + a2 < b1 * r + b2 ↔ (a1 < b1 ∨ (a1 = b1 ∧ a2 < b2)) := by
  constructor
  · intro h
    rcases Nat.lt_trichotomy a1 b1 with h1 | h1 | h1
    · exact Or.inl h1
    · refine Or.inr ⟨h1, ?_⟩
      subst h1
      exact Nat.lt_of_add_lt_add_left h
    · exfalso
      have hlt : b1 * r + b2 < a1 * r + a2 :=
        calc b1 * r + b2 < b1 * r + r := Nat.add_lt_add_left hb _
        _ = (b1 + 1) * r := by ring
        _ ≤ a1 * r := Nat.mul_le_mul_right r h1
        _ ≤ a1 * r + a2 := Nat.le_add_right _ _
      exact Nat.lt_irrefl _ (Nat.lt_trans h hlt)
  · rintro (h | ⟨rfl, h⟩)
    · calc a1 * r + a2 < a1 * r + r := Nat.add_lt_add_left ha _
      _ = (a1 + 1) * r := by ring
      _ ≤ b1 * r := Nat.mul_le_mul_right r h
      _ ≤ b1 * r + b2 := Nat.le_add_right _ _
    · exact Nat.add_lt_add_left h _

theorem mixEq {r a1 a2 b1 b2 : Nat} (ha : a2 < r) (hb : b2 < r) :
    a1 * r + a2 = b1 * r + b2 ↔ (a1 = b1 ∧ a2 = b2) := by
  constructor
  · intro h
    rcases Nat.lt_trichotomy a1 b1 with hc | hc | hc
    · exact absurd h (Nat.ne_of_lt ((mixLt ha hb).mpr (Or.inl hc)))
    · refine ⟨hc, ?_⟩
      subst hc
      exact Nat.add_left_cancel h
    · exact absurd h.symm (Nat.ne_of_lt ((mixLt hb ha).mpr (Or.inl hc)))
  · rintro ⟨rfl, rfl⟩
    rfl

set_option maxHeartbeats 1000000 in
theorem dateKey_lt_iff {d1 d2 : Datetime} (h1 : d1.valid) (h2 : d2.valid) :
    dateKey d1 < dateKey d2 ↔ chronoLt d1 d2 := by
  obtain ⟨hy1, hmo1a, hmo1b, hda1a, hda1b, hh1, hmi1, hs1, hms1⟩ := h1
  obtain ⟨hy2, hmo2a, hmo2b, hda2a, hda2b, hh2, hmi2, hs2, hms2⟩ := h2
  have hms1' : d1.millis < 1000 := by omega
  have hms2' : d2.millis < 1000 := by omega
  have hs1' : d1.second < 100 := by omega
  have hs2' : d2.second < 100 := by omega
  have hmi1' : d1.minute < 100 := by omega
  have hmi2' : d2.minute < 100 := by omega
  have hh1' : d1.hour < 100 := by omega
  have hh2' : d2.hour < 100 := by omega
  have hda1' : d1.day < 100 := by omega
  have hda2' : d2.day < 100 := by omega
  have hmo1' : d1.month < 100 := by omega
  have hmo2' : d2.month < 100 := by omega
  unfold dateKey chronoLt
  rw [mixLt hms1' hms2', mixLt hs1' hs2', mixEq hs1' hs2', mixLt hmi1' hmi2',
    mixEq hmi1' hmi2', mixLt hh1' hh2', mixEq hh1' hh2', mixLt hda1' hda2',
    mixEq hda1' hda2', mixLt hmo1' hmo2', mixEq hmo1' hmo2']
  omega

theorem lexLt_digit_cons (a b : Nat) (l1 l2 : List Nat) :
    lexLt (a :: l1) (b :: l2) = true ↔ (a < b ∨ (a = b ∧ lexLt l1 l2 = true)) := by
  simp only [lexLt]
  rcases Nat.lt_trichotomy a b with h | h | h
  · rw [if_pos h]
    exact iff_of_true rfl (Or.inl h)
  · subst h
    rw [if_neg (Nat.lt_irrefl a), if_neg (Nat.lt_irrefl a)]
    constructor
    · intro hl
      exact Or.inr ⟨rfl, hl⟩
    · rintro (hl | ⟨-, hl⟩)
      · exact absurd hl (Nat.lt_irrefl a)
      · exact hl
  · rw [if_neg (Nat.lt_asymm h), if_pos h]
    constructor
    · intro hl
      simp at hl
    · rintro (hl | ⟨rfl, -⟩)
      · exact absurd hl (Nat.lt_asymm h)
      · exact absurd h (Nat.lt_irrefl a)

theorem lexLt_pad {w x y : Nat} (hx : x < 10 ^ w) (hy : y < 10 ^ w)
    (t1 t2 : List Nat) :
    lexLt (pad w x ++ t1) (pad w y ++ t2) = true ↔
      (x < y ∨ (x = y ∧ lexLt t1 t2 = true)) := by
  induction w generalizing x y t1 t2 with
  | zero =>
    have hx0 : x = 0 := by simpa using hx
    have hy0 : y = 0 := by simpa using hy
    subst hx0; subst hy0
    simp [pad]
  | succ w ih =>
    have hpos : 0 < 10 ^ w := pow_pos (by omega) w
    have hxd : x % 10 ^ w < 10 ^ w := Nat.mod_lt _ hpos
    have hyd : y % 10 ^ w < 10 ^ w := Nat.mod_lt _ hpos
    have hxe : (x / 10 ^ w) * 10 ^ w + x % 10 ^ w = x := by
      rw [Nat.mul_comm]
      exact Nat.div_add_mod x (10 ^ w)
    have hye : (y / 10 ^ w) * 10 ^ w + y % 10 ^ w = y := by
      rw [Nat.mul_comm]
      exact Nat.div_add_mod y (10 ^ w)
    have hltiff : x < y ↔ (x / 10 ^ w < y / 10 ^ w ∨
        (x / 10 ^ w = y / 10 ^ w ∧ x % 10 ^ w < y % 10 ^ w)) := by
      conv_lhs => rw [← hxe, ← hye]
      exact mixLt hxd hyd
    have heqiff : x = y ↔ (x / 10 ^ w = y / 10 ^ w ∧ x % 10 ^ w = y % 10 ^ w) := by
      conv_lhs => rw [← hxe, ← hye]
      exact mixEq hxd hyd
    simp only [pad, List.cons_append]
    rw [lexLt_digit_cons, ih hxd hyd, add_lt_add_iff_left, add_right_inj,
      hltiff, heqiff]
    tauto

theorem lexLt_cons_same (c : Nat) (l1 l2 : List Nat) :
    lexLt (c :: l1) (c :: l2) = lexLt l1 l2 := by
  simp [lexLt]

set_option maxHeartbeats 1000000 in
theorem isoBytes_lt_iff {d1 d2 : Datetime} (h1 : d1.valid) (h2 : d2.valid) :
    lexLt (isoBytes d1) (isoBytes d2) = true ↔ chronoLt d1 d2 := by
  obtain ⟨hy1, hmo1a, hmo1b, hda1a, hda1b, hh1, hmi1, hs1, hms1⟩ := h1
  obtain ⟨hy2, hmo2a, hmo2b, hda2a, hda2b, hh2, hmi2, hs2, hms2⟩ := h2
  have e4 : (10 : Nat) ^ 4 = 10000 := by norm_num
  have e3 : (10 : Nat) ^ 3 = 1000 := by norm_num
  have e2 : (10 : Nat) ^ 2 = 100 := by norm_num
  have hy1' : d1.year < 10 ^ 4 := by rw [e4]; omega
  have hy2' : d2.year < 10 ^ 4 := by rw [e4]; omega
  have hms1' : d1.millis < 10 ^ 3 := by rw [e3]; omega
  have hms2' : d2.millis < 10 ^ 3 := by rw [e3]; omega
  have hs1' : d1.second < 10 ^ 2 := by rw [e2]; omega
  have hs2' : d2.second < 10 ^ 2 := by rw [e2]; omega
  have hmi1' : d1.minute < 10 ^ 2 := by rw [e2]; omega
  have hmi2' : d2.minute < 10 ^ 2 := by rw [e2]; omega
  have hh1' : d1.hour < 10 ^ 2 := by rw [e2]; omega
  have hh2' : d2.hour < 10 ^ 2 := by rw [e2]; omega
  have hda1' : d1.day < 10 ^ 2 := by rw [e2]; omega
  have hda2' : d2.day < 10 ^ 2 := by rw [e2]; omega
  have hmo1' : d1.month < 10 ^ 2 := by rw [e2]; omega
  have hmo2' : d2.month < 10 ^ 2 := by rw [e2]; omega
  unfold isoBytes chronoLt
  rw [lexLt_pad hy1' hy2', lexLt_cons_same, lexLt_pad hmo1' hmo2',
    lexLt_cons_same, lexLt_pad hda1' hda2', lexLt_cons_same,
    lexLt_pad hh1' hh2', lexLt_cons_same, lexLt_pad hmi1' hmi2',
    lexLt_cons_same, lexLt_pad hs1' hs2', lexLt_cons_same,
    lexLt_pad hms1' hms2', lexLt_cons_same]
  simp only [lexLt, Bool.false_eq_true, and_false, or_false]

theorem isoBytes_lt_iff_dateKey {d1 d2 : Datetime} (h1 : d1.valid)
    (h2 : d2.valid) :
    (lexLt (isoBytes d1) (isoBytes d2) = true) ↔ dateKey d1 < dateKey d2 :=
  (isoBytes_lt_iff h1 h2).trans (dateKey_lt_iff h1 h2).symm

theorem isoBytes_le_iff_dateKey {d1 d2 : Datetime} (h1 : d1.valid)
    (h2 : d2.valid) :
    (lexLe (isoBytes d1) (isoBytes d2) = true) ↔ dateKey d1 ≤ dateKey d2 := by
  simp only [lexLe, Bool.not_eq_true']
  constructor
  · intro h
    rcases le_or_lt (dateKey d1) (dateKey d2) with hc | hc
    · exact hc
    · have := (isoBytes_lt_iff_dateKey h2 h1).mpr hc
      rw [this] at h
      cases h
  · intro h
    cases hb : lexLt (isoBytes d2) (isoBytes d1) with
    | false => rfl
    | true =>
      have := (isoBytes_lt_iff_dateKey h2 h1).mp hb
      omega

theorem lexLt_asymm {l1 l2 : List Nat} (h : lexLt l1 l2 = true) :
    lexLt l2 l1 = false := by
  induction l1 generalizing l2 with
  | nil =>
    cases l2 with
    | nil => simp [lexLt] at h
    | cons b bs => rfl
  | cons a as ih =>
    cases l2 with
    | nil => simp [lexLt] at h
    | cons b bs =>
      simp only [lexLt] at h ⊢
      rcases Nat.lt_trichotomy a b with hc | hc | hc
      · rw [if_neg (Nat.lt_asymm hc), if_pos hc]
      · subst hc
        rw [if_neg (Nat.lt_irrefl a), if_neg (Nat.lt_irrefl a)] at h ⊢
        exact ih h
      · rw [if_neg (Nat.lt_asymm hc), if_pos hc] at h
        simp at h

theorem lexLt_trans {l1 l2 l3 : List Nat} (h1 : lexLt l1 l2 = true)
    (h2 : lexLt l2 l3 = true) : lexLt l1 l3 = true := by
  induction l1 generalizing l2 l3 with
  | nil =>
    cases l3 with
    | cons c cs => rfl
    | nil =>
      cases l2 with
      | nil => exact h1
      | cons b bs => simp [lexLt] at h2
  | cons a as ih =>
    cases l2 with
    | nil => simp [lexLt] at h1
    | cons b bs =>
      cases l3 with
      | nil => simp [lexLt] at h2
      | cons c cs =>
        simp only [lexLt] at h1 h2 ⊢
        rcases Nat.lt_trichotomy a b with hab | hab | hab
        · rcases Nat.lt_trichotomy b c with hbc | hbc | hbc
          · rw [if_pos (Nat.lt_trans hab hbc)]
          · subst hbc
            rw [if_pos hab]
          · rw [if_neg (Nat.lt_asymm hbc), if_pos hbc] at h2
            simp at h2
        · subst hab
          rcases Nat.lt_trichotomy a c with hac | hac | hac
          · rw [if_pos hac]
          · subst hac
            rw [if_neg (Nat.lt_irrefl a), if_neg (Nat.lt_irrefl a)] at h1 h2 ⊢
            exact ih h1 h2
          · rw [if_neg (Nat.lt_asymm hac), if_pos hac] at h2
            simp at h2
        · rw [if_neg (Nat.lt_asymm hab), if_pos hab] at h1
          simp at h1

theorem lexLt_trichot (l1 l2 : List Nat) :
    lexLt l1 l2 = true ∨ lexLt l2 l1 = true ∨ l1 = l2 := by
  induction l1 generalizing l2 with
  | nil =>
    cases l2 with
    | nil => exact Or.inr (Or.inr rfl)
    | cons b bs => exact Or.inl rfl
  | cons a as ih =>
    cases l2 with
    | nil => exact Or.inr (Or.inl rfl)
    | cons b bs =>
      rcases Nat.lt_trichotomy a b with hc | hc | hc
      · exact Or.inl (by simp [lexLt, hc])
      · subst hc
        rcases ih bs with h | h | h
        · exact Or.inl (by simp [lexLt, h])
        · exact Or.inr (Or.inl (by simp [lexLt, h]))
        · exact Or.inr (Or.inr (by rw [h]))
      · exact Or.inr (Or.inl (by simp [lexLt, hc]))

theorem lexLe_total (l1 l2 : List Nat) :
    lexLe l1 l2 = true ∨ lexLe l2 l1 = true := by
  simp only [lexLe, Bool.not_eq_true']
  cases h : lexLt l2 l1 with
  | false => exact Or.inl rfl
  | true => exact Or.inr (lexLt_asymm h)

theorem lexLe_trans {l1 l2 l3 : List Nat} (h1 : lexLe l1 l2 = true)
    (h2 : lexLe l2 l3 = true) : lexLe l1 l3 = true := by
  simp only [lexLe, Bool.not_eq_true'] at h1 h2 ⊢
  cases h : lexLt l3 l1 with
  | false => rfl
  | true =>
    exfalso
    rcases lexLt_trichot l2 l3 with hc | hc | hc
    · have := lexLt_trans hc h
      rw [this] at h1
      cases h1
    · rw [hc] at h2
      cases h2
    · subst hc
      rw [h] at h1
      cases h1

instance : IsTotal SRow sqlDesc :=
  ⟨fun a b => lexLe_total b.submission_date a.submission_date⟩

instance : IsTrans SRow sqlDesc :=
  ⟨fun _ _ _ h1 h2 => lexLe_trans h2 h1⟩

theorem truthy_iff {o : Option String} :
    truthy o = true ↔ ∃ s, o = some s ∧ s ≠ "" := by
  cases o with
  | none => simp [truthy]
  | some s => simp [truthy]

theorem orderedInsert_congr {α : Type} {r s : α → α → Prop} [DecidableRel r]
    [DecidableRel s] (a : α) (l : List α) (h : ∀ b ∈ l, (r a b ↔ s a b)) :
    l.orderedInsert r a = l.orderedInsert s a := by
  induction l with
  | nil => rfl
  | cons b bs ih =>
    simp only [List.orderedInsert]
    by_cases hr : r a b
    · rw [if_pos hr, if_pos ((h b (List.mem_cons_self b bs)).mp hr)]
    · rw [if_neg hr, if_neg (fun hs => hr ((h b (List.mem_cons_self b bs)).mpr hs)),
        ih (fun c hc => h c (List.mem_cons_of_mem b hc))]

theorem insertionSort_congr {α : Type} {r s : α → α → Prop} [DecidableRel r]
    [DecidableRel s] (l : List α) (h : ∀ a ∈ l, ∀ b ∈ l, (r a b ↔ s a b)) :
    List.insertionSort r l = List.insertionSort s l := by
  induction l with
  | nil => rfl
  | cons a as ih =>
    simp only [List.insertionSort]
    have htail : List.insertionSort r as = List.insertionSort s as :=
      ih (fun x hx y hy => h x (List.mem_cons_of_mem a hx) y (List.mem_cons_of_mem a hy))
    rw [← htail]
    exact orderedInsert_congr a _ (fun b hb => h a (List.mem_cons_self a as) b
      (List.mem_cons_of_mem a ((List.perm_insertionSort r as).mem_iff.mp hb)))

/-- C1 (counterexample): in the MongoDB variant a submission whose name,
email and message are all present and non-empty is rejected when tel is
absent — the store is left empty, no Lead document is created, and the
response is the error redirect, so the claim as stated fails. -/
theorem c1_counterexample :
    truthy (some "Ann") = true ∧ truthy (some "ann@example.com") = true ∧
    truthy (some "hello") = true ∧
    mongoSubmit [] (some ⟨some "Ann", some "ann@example.com", some "hello", none⟩)
        ⟨2024, 5, 6, 7, 8, 9, 10⟩ true 1 =
      ([], .redirect "/thank_you.html?status=error") := by
  refine ⟨by decide, by decide, by decide, ?_⟩
  rfl

/-- C1 (amended): for every submission whose name, email and message are
present and non-empty — and, in the MongoDB variant, whose tel is also
present and non-empty — a committing handler call appends exactly one Lead
whose full_name, email_address and project_details equal the submitted
name, email and message, whose submission_date is the clock value at
handling time, and responds with the success redirect. -/
theorem c1_valid_submission_inserts
    (stm : List Lead) (req : Request) (now : Datetime) (nid : Nat)
    (sts : List SRow) (sreq : Request) (snow : Datetime) (snid : Nat)
    (hn : truthy req.name = true) (he : truthy req.email = true)
    (hm : truthy req.message = true) (ht : truthy req.tel = true)
    (hsn : truthy sreq.name = true) (hse : truthy sreq.email = true)
    (hsm : truthy sreq.message = true) :
    mongoSubmit stm (some req) now true nid =
      (stm ++ [{ id := nid, full_name := req.name.getD "", tel := req.tel,
                 email_address := req.email.getD "",
                 project_details := req.message.getD "",
                 submission_date := now }],
       .redirect "/thank_you.html?status=success") ∧
    sqliteSubmit sts sreq snow true snid =
      (sts ++ [{ id := snid, full_name := sreq.name.getD "",
                 email_address := sreq.email.getD "",
                 project_details := sreq.message.getD "",
                 submission_date := isoBytes snow }],
       .redirect "/thank_you.html") := by
  constructor
  · simp [mongoSubmit, hn, he, hm, ht]
  · simp [sqliteSubmit, hsn, hse, hsm]

/-- C1 (witness): a concrete valid submission, run through both variants. -/
theorem c1_witness :
    mongoSubmit [] (some ⟨some "Ann", some "ann@example.com", some "hello", some "555"⟩)
        ⟨2024, 5, 6, 7, 8, 9, 10⟩ true 1 =
      ([⟨1, "Ann", some "555", "ann@example.com", "hello", ⟨2024, 5, 6, 7, 8, 9, 10⟩⟩],
       .redirect "/thank_you.html?status=success") ∧
    sqliteSubmit [] ⟨some "Bob", some "bob@example.com", some "hi", none⟩
        ⟨2025, 1, 2, 3, 4, 5, 6⟩ true 7 =
      ([⟨7, "Bob", "bob@example.com", "hi", isoBytes ⟨2025, 1, 2, 3, 4, 5, 6⟩⟩],
       .redirect "/thank_you.html") := by
  have h := c1_valid_submission_inserts []
    ⟨some "Ann", some "ann@example.com", some "hello", some "555"⟩
    ⟨2024, 5, 6, 7, 8, 9, 10⟩ 1
    [] ⟨some "Bob", some "bob@example.com", some "hi", none⟩
    ⟨2025, 1, 2, 3, 4, 5, 6⟩ 7
    (by decide) (by decide) (by decide) (by decide)
    (by decide) (by decide) (by decide)
  simpa using h

/-- C5: reading from a store that holds zero Lead documents yields the
empty JSON array with status 200, not an error, in both variants. -/
theorem c5_empty_collection_empty_array :
    mongoGetLeads (.ok []) = .jsonLeads 200 [] ∧
    sqliteGetLeads (.ok []) = .jsonRows 200 [] :=
  ⟨rfl, rfl⟩

/-- C6: whatever internal message a persistence failure carries, the read
handlers return status 500 with a JSON error object whose text is the fixed
generic description — the internal message does not reach the caller — and
the handler is a total function, so the process does not crash. -/
theorem c6_read_error_generic_500 (msg : String) :
    mongoGetLeads (.error msg) =
      .jsonError 500 "Failed to fetch leads from database" ∧
    sqliteGetLeads (.error msg) =
      .jsonError 500 "Failed to fetch leads from database" :=
  ⟨rfl, rfl⟩

/-- C7: an absent MONGO_URI environment variable makes startup exit the
process with code 1; the server never reaches the serving state. -/
theorem c7_missing_uri_exits_fatally :
    startupCheck none = .exitFatal 1 :=
  rfl

/-- C2: whenever the body is absent, a required field (name, email or
message — or, in the MongoDB variant, tel) fails the truthiness check, or
the store fails to commit, the submission handlers leave the stored Lead
documents exactly as they were (zero new documents, no partial write) and
respond with a failure indication. -/
theorem c2_failed_submission_writes_nothing
    (stm : List Lead) (body : Option Request) (now : Datetime) (dbOk : Bool)
    (nid : Nat) (sts : List SRow) (sreq : Request) (snow : Datetime)
    (sdbOk : Bool) (snid : Nat)
    (hm : body = none ∨ (∀ req, body = some req → (truthy req.name = false ∨
      truthy req.email = false ∨ truthy req.message = false ∨
      truthy req.tel = false)) ∨ dbOk = false)
    (hs : truthy sreq.name = false ∨ truthy sreq.email = false ∨
      truthy sreq.message = false ∨ sdbOk = false) :
    ((mongoSubmit stm body now dbOk nid).1 = stm ∧
      (mongoSubmit stm body now dbOk nid).2.indicatesFailure = true) ∧
    ((sqliteSubmit sts sreq snow sdbOk snid).1 = sts ∧
      (sqliteSubmit sts sreq snow sdbOk snid).2.indicatesFailure = true) := by
  constructor
  · rcases hm with rfl | hm | rfl
    · exact ⟨rfl, rfl⟩
    · cases body with
      | none => exact ⟨rfl, rfl⟩
      | some req =>
        rcases hm req rfl with h | h | h | h <;>
          simp [mongoSubmit, h, Response.indicatesFailure]
    · cases body with
      | none => exact ⟨rfl, rfl⟩
      | some req =>
        by_cases hc : (!(truthy req.name) || !(truthy req.email) ||
            !(truthy req.message) || !(truthy req.tel)) = true
        · simp [mongoSubmit, hc, Response.indicatesFailure]
        · simp [mongoSubmit, hc, Response.indicatesFailure]
  · rcases hs with h | h | h | rfl
    · simp [sqliteSubmit, h, Response.indicatesFailure]
    · simp [sqliteSubmit, h, Response.indicatesFailure]
    · simp [sqliteSubmit, h, Response.indicatesFailure]
    · by_cases hc : (!(truthy sreq.name) || !(truthy sreq.email) ||
          !(truthy sreq.message)) = true
      · simp [sqliteSubmit, hc, Response.indicatesFailure]
      · simp [sqliteSubmit, hc, Response.indicatesFailure]

/-- C2 (witness): a concrete submission with an empty name against the
MongoDB variant and a missing email against the SQLite variant. -/
theorem c2_witness :
    (mongoSubmit [] (some ⟨some "", some "a@x.com", some "hi", some "5"⟩)
        ⟨2024, 1, 1, 0, 0, 0, 0⟩ true 1).1 = [] ∧
      ((mongoSubmit [] (some ⟨some "", some "a@x.com", some "hi", some "5"⟩)
        ⟨2024, 1, 1, 0, 0, 0, 0⟩ true 1).2.indicatesFailure = true) ∧
    (sqliteSubmit [] ⟨some "Bo", none, some "hi", none⟩
        ⟨2024, 1, 1, 0, 0, 0, 0⟩ true 1).1 = [] ∧
      ((sqliteSubmit [] ⟨some "Bo", none, some "hi", none⟩
        ⟨2024, 1, 1, 0, 0, 0, 0⟩ true 1).2.indicatesFailure = true) := by
  have h := c2_failed_submission_writes_nothing [] (some ⟨some "", some "a@x.com", some "hi", some "5"⟩)
    ⟨2024, 1, 1, 0, 0, 0, 0⟩ true 1 [] ⟨some "Bo", none, some "hi", none⟩
    ⟨2024, 1, 1, 0, 0, 0, 0⟩ true 1
    (Or.inr (Or.inl (fun req hreq => by
      cases hreq
      exact Or.inl (by decide))))
    (Or.inr (Or.inl (by decide)))
  exact ⟨h.1.1, h.1.2, h.2.1, h.2.2⟩

/-- C8: no handler ever updates or deletes a persisted Lead: after any
single request (submission or read, successful or failed) the new store
contents are the old contents, possibly with one new record appended at
the end — every previously persisted record is unchanged and in place. -/
theorem c8_existing_leads_never_modified
    (stm : List Lead) (e : MongoEvent) (sts : List SRow) (se : SqliteEvent) :
    ((mongoStep stm e).1 = stm ∨ ∃ ld, (mongoStep stm e).1 = stm ++ [ld]) ∧
    ((sqliteStep sts se).1 = sts ∨ ∃ r, (sqliteStep sts se).1 = sts ++ [r]) := by
  constructor
  · cases e with
    | get dbFail => exact Or.inl rfl
    | post body now dbOk newId =>
      cases body with
      | none => exact Or.inl rfl
      | some req =>
        by_cases hc : (!(truthy req.name) || !(truthy req.email) ||
            !(truthy req.message) || !(truthy req.tel)) = true
        · left
          simp [mongoStep, mongoSubmit, hc]
        · cases dbOk with
          | false => left; simp [mongoStep, mongoSubmit, hc]
          | true =>
            right
            exact ⟨⟨newId, req.name.getD "", req.tel, req.email.getD "",
              req.message.getD "", now⟩, by simp [mongoStep, mongoSubmit, hc]⟩
  · cases se with
    | get dbFail => exact Or.inl rfl
    | post req now dbOk newId =>
      by_cases hc : (!(truthy req.name) || !(truthy req.email) ||
          !(truthy req.message)) = true
      · left
        simp [sqliteStep, sqliteSubmit, hc]
      · cases dbOk with
        | false => left; simp [sqliteStep, sqliteSubmit, hc]
        | true =>
          right
          exact ⟨⟨newId, req.name.getD "", req.email.getD "",
            req.message.getD "", isoBytes now⟩, by simp [sqliteStep, sqliteSubmit, hc]⟩

/-- C9: the required-field check is bare JS truthiness with no trimming:
strings made only of whitespace are non-empty, so they pass validation in
both variants (with tel also required in the MongoDB variant) and the Lead
is persisted with the whitespace values verbatim. -/
theorem c9_whitespace_passes_and_stored_verbatim
    (stm : List Lead) (now : Datetime) (nid : Nat) (n e m t : String)
    (sts : List SRow) (snow : Datetime) (snid : Nat) (n2 e2 m2 : String)
    (hn : n ≠ "" ∧ ∀ c ∈ n.data, c.isWhitespace)
    (he : e ≠ "" ∧ ∀ c ∈ e.data, c.isWhitespace)
    (hm : m ≠ "" ∧ ∀ c ∈ m.data, c.isWhitespace)
    (ht : t ≠ "" ∧ ∀ c ∈ t.data, c.isWhitespace)
    (hn2 : n2 ≠ "" ∧ ∀ c ∈ n2.data, c.isWhitespace)
    (he2 : e2 ≠ "" ∧ ∀ c ∈ e2.data, c.isWhitespace)
    (hm2 : m2 ≠ "" ∧ ∀ c ∈ m2.data, c.isWhitespace) :
    mongoSubmit stm (some ⟨some n, some e, some m, some t⟩) now true nid =
      (stm ++ [⟨nid, n, some t, e, m, now⟩],
       .redirect "/thank_you.html?status=success") ∧
    sqliteSubmit sts ⟨some n2, some e2, some m2, none⟩ snow true snid =
      (sts ++ [⟨snid, n2, e2, m2, isoBytes snow⟩],
       .redirect "/thank_you.html") := by
  constructor
  · simp [mongoSubmit, truthy, hn.1, he.1, hm.1, ht.1]
  · simp [sqliteSubmit, truthy, hn2.1, he2.1, hm2.1]

/-- C9 (witness): single-space fields pass validation and are stored
verbatim in both variants. -/
theorem c9_witness :
    mongoSubmit [] (some ⟨some " ", some " ", some " ", some " "⟩)
        ⟨2024, 1, 1, 0, 0, 0, 0⟩ true 1 =
      ([⟨1, " ", some " ", " ", " ", ⟨2024, 1, 1, 0, 0, 0, 0⟩⟩],
       .redirect "/thank_you.html?status=success") ∧
    sqliteSubmit [] ⟨some " ", some " ", some " ", none⟩
        ⟨2024, 1, 1, 0, 0, 0, 0⟩ true 1 =
      ([⟨1, " ", " ", " ", isoBytes ⟨2024, 1, 1, 0, 0, 0, 0⟩⟩],
       .redirect "/thank_you.html") :=
  c9_whitespace_passes_and_stored_verbatim [] ⟨2024, 1, 1, 0, 0, 0, 0⟩ 1
    " " " " " " " " [] ⟨2024, 1, 1, 0, 0, 0, 0⟩ 1 " " " " " "
    (by constructor <;> decide) (by constructor <;> decide)
    (by constructor <;> decide) (by constructor <;> decide)
    (by constructor <;> decide) (by constructor <;> decide)
    (by constructor <;> decide)

/-- C3: the read handlers return the stored records as a list in
non-increasing order of submission_date: each record in the MongoDB
variant's payload carries a submission_date (ISO text) no later than its
predecessor's, given that the stored moments are real calendar moments,
and the SQLite variant's payload is pairwise descending in the stored
ISO text. -/
theorem c3_read_returns_sorted_desc (leads : List Lead)
    (hv : ∀ ld ∈ leads, ld.submission_date.valid) (rows : List SRow) :
    (mongoGetLeads (.ok leads) = .jsonLeads 200 (mongoLeadsPayload leads) ∧
      List.Pairwise (fun a b => lexLe b.submission_date a.submission_date = true)
        (mongoLeadsPayload leads)) ∧
    (sqliteGetLeads (.ok rows) = .jsonRows 200 (sqliteLeadsPayload rows) ∧
      List.Pairwise sqlDesc (sqliteLeadsPayload rows)) := by
  refine ⟨⟨rfl, ?_⟩, rfl, List.sorted_insertionSort sqlDesc rows⟩
  unfold mongoLeadsPayload
  rw [List.pairwise_map]
  refine List.Pairwise.imp_of_mem ?_ (List.sorted_insertionSort mongoDesc leads)
  intro a b ha hb hr
  have hva : a.submission_date.valid :=
    hv a ((List.perm_insertionSort mongoDesc leads).mem_iff.mp ha)
  have hvb : b.submission_date.valid :=
    hv b ((List.perm_insertionSort mongoDesc leads).mem_iff.mp hb)
  simp only [formatLead]
  exact (isoBytes_le_iff_dateKey hvb hva).mpr hr

/-- C3 (witness): two seeded documents per variant, read back in order. -/
theorem c3_witness :
    (mongoGetLeads (.ok [⟨1, "A", some "1", "a@x.com", "m1", ⟨2024, 1, 1, 0, 0, 0, 0⟩⟩,
        ⟨2, "B", none, "b@x.com", "m2", ⟨2025, 2, 2, 0, 0, 0, 0⟩⟩]) =
      .jsonLeads 200 (mongoLeadsPayload [⟨1, "A", some "1", "a@x.com", "m1", ⟨2024, 1, 1, 0, 0, 0, 0⟩⟩,
        ⟨2, "B", none, "b@x.com", "m2", ⟨2025, 2, 2, 0, 0, 0, 0⟩⟩]) ∧
      List.Pairwise (fun a b => lexLe b.submission_date a.submission_date = true)
        (mongoLeadsPayload [⟨1, "A", some "1", "a@x.com", "m1", ⟨2024, 1, 1, 0, 0, 0, 0⟩⟩,
          ⟨2, "B", none, "b@x.com", "m2", ⟨2025, 2, 2, 0, 0, 0, 0⟩⟩])) ∧
    (sqliteGetLeads (.ok [⟨1, "A", "a@x.com", "m1", isoBytes ⟨2024, 1, 1, 0, 0, 0, 0⟩⟩,
        ⟨2, "B", "b@x.com", "m2", isoBytes ⟨2025, 2, 2, 0, 0, 0, 0⟩⟩]) =
      .jsonRows 200 (sqliteLeadsPayload [⟨1, "A", "a@x.com", "m1", isoBytes ⟨2024, 1, 1, 0, 0, 0, 0⟩⟩,
        ⟨2, "B", "b@x.com", "m2", isoBytes ⟨2025, 2, 2, 0, 0, 0, 0⟩⟩]) ∧
      List.Pairwise sqlDesc (sqliteLeadsPayload [⟨1, "A", "a@x.com", "m1", isoBytes ⟨2024, 1, 1, 0, 0, 0, 0⟩⟩,
        ⟨2, "B", "b@x.com", "m2", isoBytes ⟨2025, 2, 2, 0, 0, 0, 0⟩⟩])) :=
  c3_read_returns_sorted_desc
    [⟨1, "A", some "1", "a@x.com", "m1", ⟨2024, 1, 1, 0, 0, 0, 0⟩⟩,
     ⟨2, "B", none, "b@x.com", "m2", ⟨2025, 2, 2, 0, 0, 0, 0⟩⟩]
    (by decide)
    [⟨1, "A", "a@x.com", "m1", isoBytes ⟨2024, 1, 1, 0, 0, 0, 0⟩⟩,
     ⟨2, "B", "b@x.com", "m2", isoBytes ⟨2025, 2, 2, 0, 0, 0, 0⟩⟩]

/-- C4: round-trip — a Lead inserted by a valid submission appears in the
read payload with identical full_name, email_address and project_details;
its tel is returned verbatim when submitted, and a Lead stored without tel
is returned with the sentinel "N/A"; the SQLite variant returns the
inserted row itself (identifier and all fields) verbatim. -/
theorem c4_roundtrip_fields_preserved
    (stm : List Lead) (req : Request) (now : Datetime) (nid : Nat)
    (sts : List SRow) (sreq : Request) (snow : Datetime) (snid : Nat)
    (hn : truthy req.name = true) (he : truthy req.email = true)
    (hm : truthy req.message = true) (ht : truthy req.tel = true)
    (hsn : truthy sreq.name = true) (hse : truthy sreq.email = true)
    (hsm : truthy sreq.message = true) :
    (∃ f ∈ mongoLeadsPayload (mongoSubmit stm (some req) now true nid).1,
        f.id = nid ∧ f.full_name = req.name.getD "" ∧ f.tel = req.tel.getD "" ∧
        f.email_address = req.email.getD "" ∧
        f.project_details = req.message.getD "") ∧
    (∀ ld : Lead, ld.tel = none → (formatLead ld).tel = "N/A") ∧
    (∃ r ∈ sqliteLeadsPayload (sqliteSubmit sts sreq snow true snid).1,
        r = ⟨snid, sreq.name.getD "", sreq.email.getD "",
             sreq.message.getD "", isoBytes snow⟩) := by
  refine ⟨?_, ?_, ?_⟩
  · obtain ⟨s, hts, hsne⟩ := truthy_iff.mp ht
    have h1 : (mongoSubmit stm (some req) now true nid).1 =
        stm ++ [⟨nid, req.name.getD "", req.tel, req.email.getD "",
          req.message.getD "", now⟩] := by
      simp [mongoSubmit, hn, he, hm, ht]
    refine ⟨formatLead ⟨nid, req.name.getD "", req.tel, req.email.getD "",
      req.message.getD "", now⟩, ?_, ?_, ?_, ?_, ?_, ?_⟩
    · unfold mongoLeadsPayload
      apply List.mem_map_of_mem
      refine (List.perm_insertionSort mongoDesc _).mem_iff.mpr ?_
      rw [h1]
      exact List.mem_append_right stm (List.mem_singleton_self _)
    · rfl
    · rfl
    · simp [formatLead, hts, hsne]
    · rfl
    · rfl
  · intro ld h
    simp [formatLead, h]
  · have h1 : (sqliteSubmit sts sreq snow true snid).1 =
        sts ++ [⟨snid, sreq.name.getD "", sreq.email.getD "",
          sreq.message.getD "", isoBytes snow⟩] := by
      simp [sqliteSubmit, hsn, hse, hsm]
    refine ⟨_, ?_, rfl⟩
    unfold sqliteLeadsPayload
    refine (List.perm_insertionSort sqlDesc _).mem_iff.mpr ?_
    rw [h1]
    exact List.mem_append_right sts (List.mem_singleton_self _)

/-- C4 (witness): a concrete valid submission round-trips through both
variants. -/
theorem c4_witness :
    (∃ f ∈ mongoLeadsPayload (mongoSubmit []
        (some ⟨some "Ann", some "ann@example.com", some "hello", some "555"⟩)
        ⟨2024, 5, 6, 7, 8, 9, 10⟩ true 1).1,
        f.id = 1 ∧ f.full_name = (some "Ann").getD "" ∧
        f.tel = (some "555").getD "" ∧
        f.email_address = (some "ann@example.com").getD "" ∧
        f.project_details = (some "hello").getD "") ∧
    (∀ ld : Lead, ld.tel = none → (formatLead ld).tel = "N/A") ∧
    (∃ r ∈ sqliteLeadsPayload (sqliteSubmit []
        ⟨some "Bob", some "bob@example.com", some "hi", none⟩
        ⟨2025, 1, 2, 3, 4, 5, 6⟩ true 7).1,
        r = ⟨7, (some "Bob").getD "", (some "bob@example.com").getD "",
             (some "hi").getD "", isoBytes ⟨2025, 1, 2, 3, 4, 5, 6⟩⟩) :=
  c4_roundtrip_fields_preserved []
    ⟨some "Ann", some "ann@example.com", some "hello", some "555"⟩
    ⟨2024, 5, 6, 7, 8, 9, 10⟩ 1
    [] ⟨some "Bob", some "bob@example.com", some "hi", none⟩
    ⟨2025, 1, 2, 3, 4, 5, 6⟩ 7
    (by decide) (by decide) (by decide) (by decide)
    (by decide) (by decide) (by decide)

/-- C10: for calendar moments in the renderable range, byte-wise
lexicographic comparison of the stored ISO-8601 text agrees with the
numeric comparison of the backing timestamp, so sorting descending by the
SQLite TEXT column produces exactly the order the MongoDB variant's
numeric descending sort produces. -/
theorem c10_iso_text_order_equals_chrono_order
    (d1 d2 : Datetime) (h1 : d1.valid) (h2 : d2.valid)
    (ds : List Datetime) (hds : ∀ d ∈ ds, d.valid) :
    (lexLe (isoBytes d1) (isoBytes d2) = true ↔ dateKey d1 ≤ dateKey d2) ∧
    List.insertionSort (fun a b => lexLe (isoBytes b) (isoBytes a) = true) ds =
      List.insertionSort (fun a b => dateKey b ≤ dateKey a) ds := by
  refine ⟨isoBytes_le_iff_dateKey h1 h2, insertionSort_congr ds ?_⟩
  intro a ha b hb
  exact isoBytes_le_iff_dateKey (hds b hb) (hds a ha)

/-- C10 (witness): concrete moments across a year boundary. -/
theorem c10_witness :
    (lexLe (isoBytes ⟨2024, 12, 31, 23, 59, 59, 999⟩)
        (isoBytes ⟨2025, 1, 1, 0, 0, 0, 0⟩) = true ↔
      dateKey ⟨2024, 12, 31, 23, 59, 59, 999⟩ ≤ dateKey ⟨2025, 1, 1, 0, 0, 0, 0⟩) ∧
    List.insertionSort (fun a b => lexLe (isoBytes b) (isoBytes a) = true)
        [⟨2024, 12, 31, 23, 59, 59, 999⟩, ⟨2025, 1, 1, 0, 0, 0, 0⟩] =
      List.insertionSort (fun a b => dateKey b ≤ dateKey a)
        [⟨2024, 12, 31, 23, 59, 59, 999⟩, ⟨2025, 1, 1, 0, 0, 0, 0⟩] :=
  c10_iso_text_order_equals_chrono_order
    ⟨2024, 12, 31, 23, 59, 59, 999⟩ ⟨2025, 1, 1, 0, 0, 0, 0⟩
    (by decide) (by decide)
    [⟨2024, 12, 31, 23, 59, 59, 999⟩, ⟨2025, 1, 1, 0, 0, 0, 0⟩]
    (by decide)
